import Mathlib

/-!
Shallow embedding of the Issue-Templates-For-Jira resolver layer
(template.js, templateassign.js, globalpage.js, applytemplate.js).

The Forge key-value storage is modelled as an association list from
template id to template record, together with the ordered id index and
the global configuration record, all bundled in a `Store`.  Dynamically
typed payload fields (which in JS may be `undefined`, a string or an
array) are modelled by the small `JVal` type.  Absent record fields are
modelled with `Option` (`none` = the JS field is `undefined`); boolean
truthiness reads such as `!tpl.active` become `isActive`.  The wall
clock (`new Date().toISOString()`) is passed in as an explicit `now`
parameter, and freshly generated ids (`generateId()`) as explicit
`newId` parameters.  Thrown JS `Error`s become `Except Err` with the
error message classified by the design taxonomy (Validation / NotFound /
Authorization).  JS string `.trim()` is modelled by the executable
`jsTrim` below.
-/

namespace IssueTemplates

/-- A JS payload value that may be `undefined`, a plain string, or an
array of strings. -/
inductive JVal where
  | undef
  | str (s : String)
  | arr (xs : List String)
deriving DecidableEq

/-- A template record as stored under `issue-templates:template:<id>`.
Fields that a stored record may lack (`assignedProjects`,
`assignedIssueTypes`, `active`, `owner`) are `Option`-valued; `deleted`
is read only by truthiness so absence and `false` coincide and it is a
plain `Bool`.  The `meta` field is never consulted by any operation
modelled here and is elided. -/
structure Template where
  id : String
  name : String := ""
  summary : String := ""
  content : String := ""
  projects : List String := []
  assignedProjects : Option (List String) := none
  assignedIssueTypes : Option (List String) := none
  active : Option Bool := none
  deleted : Bool := false
  owner : Option String := none
  createdAt : Nat := 0
  updatedAt : Nat := 0
deriving DecidableEq

/-- The global configuration stored under `issue-templates:config`
(defaults `allowAllUsers = false`, `admins = []` are applied by
`readGlobalConfig`). -/
structure GlobalConfig where
  allowAllUsers : Bool := false
  admins : List String := []
deriving DecidableEq

/-- The requesting user taken from `req.context.user`. -/
structure User where
  accountId : String
  isProductAdmin : Bool := false
  isAdmin : Bool := false
deriving DecidableEq

/-- The associative store restricted to the keys the resolvers use:
the ordered id index (`issue-templates:index`), the per-template
records, and the global config. -/
structure Store where
  index : List String
  tms : List (String × Template)
  config : GlobalConfig
deriving DecidableEq

/-- Error taxonomy of the design (Validation / NotFound /
Authorization), carrying the JS error message thrown by the source. -/
inductive Err where
  | validation (msg : String)
  | notFound (msg : String)
  | authz (msg : String)
deriving DecidableEq

instance exceptDecEq {ε α : Type} [DecidableEq ε] [DecidableEq α] :
    DecidableEq (Except ε α) := fun x y =>
  match x, y with
  | .ok a, .ok b =>
    if h : a = b then isTrue (by rw [h]) else isFalse (by intro hh; cases hh; exact h rfl)
  | .error a, .error b =>
    if h : a = b then isTrue (by rw [h]) else isFalse (by intro hh; cases hh; exact h rfl)
  | .ok _, .error _ => isFalse (by intro hh; cases hh)
  | .error _, .ok _ => isFalse (by intro hh; cases hh)

/-- Helper for `jsTrim`: drop leading whitespace characters. -/
def dropWhileWS : List Char → List Char
  | [] => []
  | c :: cs => if c.isWhitespace then dropWhileWS cs else c :: cs

/-- Executable model of the JS `String.prototype.trim()` used by the
source (strip whitespace from both ends). -/
def jsTrim (s : String) : String :=
  String.mk ((dropWhileWS ((dropWhileWS s.data).reverse)).reverse)

/-- JS truthiness of `tpl.active` (an absent flag reads as inactive). -/
def isActive (t : Template) : Bool :=
  t.active.getD false

/-- `storage.get(templateKey(id))`. -/
def storeGet (tms : List (String × Template)) (id : String) : Option Template :=
  match tms with
  | [] => none
  | (k, t) :: rest => if k = id then some t else storeGet rest id

/-- `storage.set(templateKey(id), t)`. -/
def storeSet (tms : List (String × Template)) (id : String) (t : Template) :
    List (String × Template) :=
  match tms with
  | [] => [(id, t)]
  | (k, t0) :: rest => if k = id then (id, t) :: rest else (k, t0) :: storeSet rest id t

/-- `storage.delete(templateKey(id))`. -/
def storeDelete (tms : List (String × Template)) (id : String) :
    List (String × Template) :=
  match tms with
  | [] => []
  | (k, t0) :: rest => if k = id then storeDelete rest id else (k, t0) :: storeDelete rest id

/-- `setsOverlap(a, b)` from templateassign.js lines 73-78: detect
overlap between two sets where empty means "all".  The JS non-array
guard is rendered unreachable by the types; the `= []` default for an
`undefined` argument is applied by `setsOverlapOpt`. -/
def setsOverlap (a b : List String) : Bool :=
  if a.length = 0 && b.length = 0 then true
  else if a.length = 0 || b.length = 0 then true
  else a.any fun x => b.contains x

/-- Call-site behaviour of `setsOverlap` on possibly-absent record
fields (JS default parameters replace `undefined` with `[]`). -/
def setsOverlapOpt (a b : Option (List String)) : Bool :=
  setsOverlap (a.getD []) (b.getD [])

/-- The conjunction `projectsOverlap && issueTypesOverlap` computed in
`enforceUniqueActiveTemplates` (templateassign.js lines 93-95). -/
def scopeOverlapB (t o : Template) : Bool :=
  setsOverlapOpt t.assignedProjects o.assignedProjects
    && setsOverlapOpt t.assignedIssueTypes o.assignedIssueTypes

/-- Lines 96-97 of templateassign.js: turn the losing template off and
stamp its `updatedAt`. -/
def deactivate (o : Template) (now : Nat) : Template :=
  { o with active := some false, updatedAt := now }

/-- `isAdminRequest(req)`: the requester is a global admin when present
in the configured admin list or carrying an explicit admin flag. -/
def isAdminUser (s : Store) (u : Option User) : Bool :=
  match u with
  | none => false
  | some usr =>
    s.config.admins.contains usr.accountId || usr.isProductAdmin || usr.isAdmin

/-- `isProjectAdmin(req, projectKey)`: the external Jira permission
lookup is an oracle `projAdmin`; an empty project key short-circuits to
false, and any transport failure is already folded into the oracle
(fails closed). -/
def isProjectAdminB (projAdmin : String → Bool) (projectKey : String) : Bool :=
  if projectKey.isEmpty then false else projAdmin projectKey

/-- The permission block of `assignTemplateToProjects`
(templateassign.js lines 113-130): global allow-all, global admin,
record owner, or project admin on every target project. -/
def assignProjectsAuthorized (s : Store) (u : Option User) (projAdmin : String → Bool)
    (tpl : Template) (ps : List String) : Bool :=
  if !s.config.allowAllUsers && !(isAdminUser s u) then
    match u with
    | some usr =>
      if tpl.owner == some usr.accountId then true
      else ps.all fun p => isProjectAdminB projAdmin p
    | none => ps.all fun p => isProjectAdminB projAdmin p
  else true

/-- The permission block shared by `updateTemplate`, `deleteTemplate`
and `assignTemplateToIssueTypes`: global allow-all, global admin, or
record owner. -/
def ownerOrAdminAuthorized (s : Store) (u : Option User) (owner : Option String) : Bool :=
  if !s.config.allowAllUsers && !(isAdminUser s u) then
    match u with
    | some usr => owner == some usr.accountId
    | none => false
  else true

/-- The scan loop of `enforceUniqueActiveTemplates` (templateassign.js
lines 87-101), recursing over the index read at entry and threading the
template map. -/
def enforceLoop (template : Template) (now : Nat) (tms : List (String × Template)) :
    List String → List (String × Template) × List String
  | [] => (tms, [])
  | id :: rest =>
    if id = template.id then enforceLoop template now tms rest
    else
      match storeGet tms id with
      | none => enforceLoop template now tms rest
      | some other =>
        if other.deleted then enforceLoop template now tms rest
        else if !(isActive other) then enforceLoop template now tms rest
        else
          if scopeOverlapB template other then
            let r := enforceLoop template now (storeSet tms id (deactivate other now)) rest
            (r.1, id :: r.2)
          else enforceLoop template now tms rest

/-- `enforceUniqueActiveTemplates(template)` (templateassign.js lines
83-103): deactivate every other non-deleted active template whose scope
overlaps the given (active) template's scope; return the new store and
the deactivated ids in scan order. -/
def enforceUniqueActiveTemplates (s : Store) (template : Template) (now : Nat) :
    Store × List String :=
  if !(isActive template) then (s, [])
  else
    let r := enforceLoop template now s.tms s.index
    ({ s with tms := r.1 }, r.2)

/-- `setTemplateActive` (templateassign.js lines 178-191).  The request
user is ignored: the handler performs no authorization check. -/
def setTemplateActive (s : Store) (_u : Option User) (id : String) (active : Bool)
    (now : Nat) : Except Err (Store × Template × List String) :=
  if id.isEmpty then .error (.validation "Template id is required")
  else
    match storeGet s.tms id with
    | none => .error (.notFound "Template not found")
    | some tpl =>
      if tpl.deleted then .error (.notFound "Template not found")
      else
        let tpl1 := { tpl with active := some active, updatedAt := now }
        let s1 := { s with tms := storeSet s.tms id tpl1 }
        if isActive tpl1 then
          let r := enforceUniqueActiveTemplates s1 tpl1 now
          .ok (r.1, tpl1, r.2)
        else
          .ok (s1, tpl1, [])

/-- `assignTemplateToProjects` (templateassign.js lines 106-143):
validate id and the projects array, look up the template, authorize
(global allow-all, global admin, owner, or project admin on every
target project), write the new scope, then enforce uniqueness when the
template is active. -/
def assignTemplateToProjects (s : Store) (u : Option User) (projAdmin : String → Bool)
    (id : String) (projects issueTypes : JVal) (now : Nat) :
    Except Err (Store × Template × List String) :=
  if id.isEmpty then .error (.validation "Template id is required")
  else
    match projects with
    | .arr ps =>
      match storeGet s.tms id with
      | none => .error (.notFound "Template not found")
      | some tpl =>
        if tpl.deleted then .error (.notFound "Template not found")
        else
          if !(assignProjectsAuthorized s u projAdmin tpl ps) then
            .error (.authz "Not authorized to assign template to projects")
          else
            let tpl1 := { tpl with assignedProjects := some ps }
            let tpl2 :=
              match issueTypes with
              | .undef => tpl1
              | .arr xs => { tpl1 with assignedIssueTypes := some xs }
              | .str _ => { tpl1 with assignedIssueTypes := some [] }
            let tpl3 := { tpl2 with updatedAt := now }
            let s1 := { s with tms := storeSet s.tms id tpl3 }
            if isActive tpl3 then
              let r := enforceUniqueActiveTemplates s1 tpl3 now
              .ok (r.1, tpl3, r.2)
            else .ok (s1, tpl3, [])
    | _ => .error (.validation "`projects` must be an array")

/-- `assignTemplateToIssueTypes` (templateassign.js lines 146-175):
like `assignTemplateToProjects` with the axes swapped, and with
authorization limited to allow-all / global admin / owner. -/
def assignTemplateToIssueTypes (s : Store) (u : Option User) (id : String)
    (issueTypes projects : JVal) (now : Nat) :
    Except Err (Store × Template × List String) :=
  if id.isEmpty then .error (.validation "Template id is required")
  else
    match issueTypes with
    | .arr its =>
      match storeGet s.tms id with
      | none => .error (.notFound "Template not found")
      | some tpl =>
        if tpl.deleted then .error (.notFound "Template not found")
        else
          if !(ownerOrAdminAuthorized s u tpl.owner) then
            .error (.authz "Not authorized to assign template to issue types")
          else
            let tpl1 := { tpl with assignedIssueTypes := some its }
            let tpl2 :=
              match projects with
              | .undef => tpl1
              | .arr xs => { tpl1 with assignedProjects := some xs }
              | .str _ => { tpl1 with assignedProjects := some [] }
            let tpl3 := { tpl2 with updatedAt := now }
            let s1 := { s with tms := storeSet s.tms id tpl3 }
            if isActive tpl3 then
              let r := enforceUniqueActiveTemplates s1 tpl3 now
              .ok (r.1, tpl3, r.2)
            else .ok (s1, tpl3, [])
    | _ => .error (.validation "`issueTypes` must be an array")

/-- `getTemplateAssignments` (templateassign.js lines 194-200). -/
def getTemplateAssignments (s : Store) (id : String) :
    Except Err (List String × List String) :=
  if id.isEmpty then .error (.validation "Template id is required")
  else
    match storeGet s.tms id with
    | none => .error (.notFound "Template not found")
    | some tpl =>
      if tpl.deleted then .error (.notFound "Template not found")
      else .ok (tpl.assignedProjects.getD [], tpl.assignedIssueTypes.getD [])

/-- Payload of `updateTemplate`; each field is optional (`undefined`
means "leave unchanged"), and the two scope fields carry raw JS values
because a non-array value is coerced to `[]`. -/
structure UpdatePayload where
  id : String := ""
  name : Option String := none
  summary : Option String := none
  content : Option String := none
  assignedProjects : JVal := .undef
  assignedIssueTypes : JVal := .undef
  active : Option Bool := none
deriving DecidableEq

/-- `updateTemplate` (globalpage.js lines 87-120): authorize (allow-all
/ admin / owner), merge the supplied fields over the existing record,
stamp `updatedAt` and persist.  Note that no uniqueness enforcement is
performed. -/
def updateTemplate (s : Store) (u : Option User) (p : UpdatePayload) (now : Nat) :
    Except Err (Store × Template) :=
  if p.id.isEmpty then .error (.validation "Template id is required")
  else
    match storeGet s.tms p.id with
    | none => .error (.notFound "Template not found")
    | some existing =>
      if existing.deleted then .error (.notFound "Template not found")
      else
        if !(ownerOrAdminAuthorized s u existing.owner) then
          .error (.authz "Not authorized to update template")
        else
          let t0 := existing
          let t1 := match p.name with
            | some n => { t0 with name := jsTrim n }
            | none => t0
          let t2 := match p.summary with
            | some v => { t1 with summary := v }
            | none => t1
          let t3 := match p.content with
            | some v => { t2 with content := v }
            | none => t2
          let t4 := match p.assignedProjects with
            | .undef => t3
            | .arr xs => { t3 with assignedProjects := some xs }
            | .str _ => { t3 with assignedProjects := some [] }
          let t5 := match p.assignedIssueTypes with
            | .undef => t4
            | .arr xs => { t4 with assignedIssueTypes := some xs }
            | .str _ => { t4 with assignedIssueTypes := some [] }
          let t6 := match p.active with
            | some b => { t5 with active := some b }
            | none => t5
          let merged := { t6 with updatedAt := now }
          .ok ({ s with tms := storeSet s.tms p.id merged }, merged)

/-- `deleteTemplate` (globalpage.js lines 123-154): soft delete marks
the record deleted and inactive; hard delete removes the record and its
index entry.  (The lookup rejects only a missing record, not an
already-soft-deleted one.) -/
def deleteTemplate (s : Store) (u : Option User) (id : String) (hard : Bool)
    (now : Nat) : Except Err Store :=
  if id.isEmpty then .error (.validation "Template id is required")
  else
    match storeGet s.tms id with
    | none => .error (.notFound "Template not found")
    | some existing =>
      if !(ownerOrAdminAuthorized s u existing.owner) then
        .error (.authz "Not authorized to delete template")
      else if hard then
        .ok { s with tms := storeDelete s.tms id,
                     index := s.index.filter (fun tid => tid != id) }
      else
        let softDeleted :=
          { existing with deleted := true, active := some false, updatedAt := now }
        .ok { s with tms := storeSet s.tms id softDeleted }

/-- `duplicateTemplate` (globalpage.js lines 157-188): clone an
existing non-deleted template under a fresh id and push the id onto the
index.  The handler performs no authorization check. -/
def duplicateTemplate (s : Store) (u : Option User) (id newName newId : String)
    (now : Nat) : Except Err (Store × Template) :=
  if id.isEmpty then .error (.validation "Template id is required")
  else
    match storeGet s.tms id with
    | none => .error (.notFound "Template not found")
    | some existing =>
      if existing.deleted then .error (.notFound "Template not found")
      else
        let clone := { existing with
          id := newId,
          name := if !newName.isEmpty && !(jsTrim newName).isEmpty then jsTrim newName
                  else existing.name ++ " (copy)",
          owner := (match u with
            | some usr => some usr.accountId
            | none => existing.owner),
          createdAt := now,
          updatedAt := now,
          deleted := false }
        .ok ({ s with tms := storeSet s.tms newId clone, index := newId :: s.index }, clone)

/-- Payload of `createTemplate`; absent `summary`/`content` behave as
the empty string (they are read through `payload.x || ''` and
truthiness), and `projects` carries a raw JS value because a non-array
value is coerced to `[]`. -/
structure CreatePayload where
  name : String := ""
  summary : String := ""
  content : String := ""
  projects : JVal := .undef
deriving DecidableEq

/-- `createTemplate` (template.js lines 190-232): validate the name,
authorize (allow-all or admin), and store a fresh record.  The stored
record sets `projects` (not `assignedProjects`/`assignedIssueTypes`)
and carries no `active` or `deleted` flag. -/
def createTemplate (s : Store) (u : Option User) (p : CreatePayload) (newId : String)
    (now : Nat) : Except Err (Store × Template) :=
  if p.name.isEmpty || (jsTrim p.name).isEmpty then
    .error (.validation "`name` is required and must be a non-empty string")
  else if !s.config.allowAllUsers && !(isAdminUser s u) then
    .error (.authz "Not authorized to create templates")
  else
    let owner : Option String :=
      match u with
      | some usr => some usr.accountId
      | none => none
    let template : Template := {
      id := newId,
      name := jsTrim p.name,
      summary := if !p.summary.isEmpty then p.summary else "",
      content := p.content,
      projects := (match p.projects with
        | .arr xs => xs
        | _ => []),
      owner := owner,
      createdAt := now,
      updatedAt := now }
    .ok ({ s with tms := storeSet s.tms newId template, index := newId :: s.index }, template)

/-- The scan loop shared by `findMatchingTemplate` (applytemplate.js
lines 28-36) and `findApplicableTemplate` (globalpage.js lines
212-220): first active, non-deleted template in index order whose
scope matches. -/
def findLoop (tms : List (String × Template)) (projectKey issueType : String) :
    List String → Option Template
  | [] => none
  | id :: rest =>
    match storeGet tms id with
    | none => findLoop tms projectKey issueType rest
    | some tpl =>
      if tpl.deleted then findLoop tms projectKey issueType rest
      else if !(isActive tpl) then findLoop tms projectKey issueType rest
      else
        let assignedProjects := tpl.assignedProjects.getD []
        let assignedIssueTypes := tpl.assignedIssueTypes.getD []
        let projectMatch := assignedProjects.isEmpty || assignedProjects.contains projectKey
        let issueTypeMatch := assignedIssueTypes.isEmpty
          || (!issueType.isEmpty && assignedIssueTypes.contains issueType)
        if projectMatch && issueTypeMatch then some tpl
        else findLoop tms projectKey issueType rest

/-- `findMatchingTemplate(projectKey, issueType)` (applytemplate.js
lines 25-38).  An absent or empty `issueType` is modelled by the empty
string (both are JS-falsy at the single place the value is read). -/
def findMatchingTemplate (s : Store) (projectKey issueType : String) : Option Template :=
  if projectKey.isEmpty then none
  else findLoop s.tms projectKey issueType s.index

/-- Result record of `getPrefillForCreateIssue`. -/
structure PrefillData where
  templateId : String
  summary : Option String
  description : Option String
  applySummary : Bool
  applyDescription : Bool
  templateName : String
deriving DecidableEq

/-- `getPrefillForCreateIssue` (applytemplate.js lines 43-73): find the
matching template and decide whether its summary/description should be
applied over the caller-supplied current values. -/
def getPrefillForCreateIssue (s : Store)
    (projectKey issueType currentSummary currentDescription : String) :
    Option PrefillData :=
  if projectKey.isEmpty then none
  else
    match findMatchingTemplate s projectKey issueType with
    | none => none
    | some tpl =>
      let summaryFromTpl :=
        if !tpl.summary.isEmpty && !(jsTrim tpl.summary).isEmpty then some tpl.summary
        else none
      let descFromTpl :=
        if !tpl.content.isEmpty && !(jsTrim tpl.content).isEmpty then some tpl.content
        else none
      let applySummary := summaryFromTpl.isSome && (jsTrim currentSummary).isEmpty
      let applyDescription := descFromTpl.isSome && (jsTrim currentDescription).isEmpty
      some {
        templateId := tpl.id,
        summary := summaryFromTpl,
        description := descFromTpl,
        applySummary := applySummary,
        applyDescription := applyDescription,
        templateName := tpl.name }

/-- Whether a template's scope covers a concrete (projectKey,
issueType) pair, exactly as computed inside the matching loops; an
empty `issueType` string models an absent issue type. -/
def coversPair (t : Template) (projectKey issueType : String) : Bool :=
  ((t.assignedProjects.getD []).isEmpty
      || (t.assignedProjects.getD []).contains projectKey)
    && ((t.assignedIssueTypes.getD []).isEmpty
      || (!issueType.isEmpty && (t.assignedIssueTypes.getD []).contains issueType))

/-- The one-active-per-scope invariant of the design: no two distinct
stored, active, non-deleted templates cover a common pair. -/
def OneActivePerScope (s : Store) : Prop :=
  ∀ pk it k1 k2 t1 t2, storeGet s.tms k1 = some t1 → storeGet s.tms k2 = some t2 →
    k1 ≠ k2 → t1.deleted = false → t2.deleted = false →
    isActive t1 = true → isActive t2 = true →
    coversPair t1 pk it = true → coversPair t2 pk it = true → False

/-- One exposed mutating resolver call, with arbitrary request data. -/
inductive Step : Store → Store → Prop where
  | create {s u p newId now s1 t} :
      createTemplate s u p newId now = .ok (s1, t) → Step s s1
  | update {s u p now s1 t} :
      updateTemplate s u p now = .ok (s1, t) → Step s s1
  | del {s u id hard now s1} :
      deleteTemplate s u id hard now = .ok s1 → Step s s1
  | dup {s u id newName newId now s1 t} :
      duplicateTemplate s u id newName newId now = .ok (s1, t) → Step s s1
  | setActive {s u id a now s1 t ds} :
      setTemplateActive s u id a now = .ok (s1, t, ds) → Step s s1
  | assignProjects {s u pa id ps its now s1 t ds} :
      assignTemplateToProjects s u pa id ps its now = .ok (s1, t, ds) → Step s s1
  | assignIssueTypes {s u id its ps now s1 t ds} :
      assignTemplateToIssueTypes s u id its ps now = .ok (s1, t, ds) → Step s s1

/-- The empty installation: nothing stored, default global config. -/
def initStore : Store :=
  { index := [], tms := [], config := {} }

/-- States reachable from the empty installation through the exposed
mutating resolver calls. -/
def Reachable (s : Store) : Prop :=
  Relation.ReflTransGen Step initStore s

/-- Well-formedness of a store: every stored record is keyed by its own
id, every stored key is listed in the index, and the index has no
duplicates. -/
def WF (s : Store) : Prop :=
  (∀ k t, storeGet s.tms k = some t → t.id = k ∧ k ∈ s.index) ∧ s.index.Nodup

/-- Whether the record stored at key `k` is a non-deleted, active
template whose scope overlaps `template` (the deactivation test of the
enforcement scan). -/
def qualB (tms : List (String × Template)) (template : Template) (k : String) : Bool :=
  match storeGet tms k with
  | some o => !o.deleted && isActive o && scopeOverlapB template o
  | none => false

/-- Concrete template used by several witnesses: wildcard scope,
active. -/
def wTplA : Template :=
  { id := "A", name := "Alpha", summary := "S", content := "C",
    assignedProjects := some [], assignedIssueTypes := some [],
    active := some true, owner := some "own" }

/-- Concrete template used by several witnesses: scoped to project
`P`, inactive. -/
def wTplB : Template :=
  { id := "B", name := "Beta",
    assignedProjects := some ["P"], assignedIssueTypes := some [],
    active := some false, owner := some "own" }

/-- A small two-template store used by several witnesses. -/
def wStore : Store :=
  { index := ["B", "A"],
    tms := [("A", wTplA), ("B", wTplB)],
    config := { allowAllUsers := true, admins := [] } }

/-- An active wildcard template not stored in `wStore`, used by the
idempotence witness. -/
def wTplForce : Template :=
  { id := "F", assignedProjects := some [], assignedIssueTypes := some [],
    active := some true }

/-- The activated copy of `wTplB` produced by `setTemplateActive`. -/
def wTplB1 : Template :=
  { wTplB with active := some true, updatedAt := 5 }

/-- `wStore` after activating template B: the overlapping wildcard
template A has been deactivated. -/
def wStoreB : Store :=
  { index := ["B", "A"],
    tms := [("A", { wTplA with active := some false, updatedAt := 5 }), ("B", wTplB1)],
    config := { allowAllUsers := true, admins := [] } }

/-- An active template scoped to project `Q`, disjoint from `wTplB`. -/
def wTplQ : Template :=
  { id := "Q1", name := "Qmpl", assignedProjects := some ["Q"],
    assignedIssueTypes := some [], active := some true, owner := some "own" }

/-- Store holding the disjoint active template `wTplQ` and the inactive
`wTplB`. -/
def wStoreQ : Store :=
  { index := ["B", "Q1"],
    tms := [("Q1", wTplQ), ("B", wTplB)],
    config := { allowAllUsers := true, admins := [] } }

/-- `wStoreQ` after activating template B: nothing overlaps, so
nothing is deactivated. -/
def wStoreQ1 : Store :=
  { index := ["B", "Q1"],
    tms := [("Q1", wTplQ), ("B", wTplB1)],
    config := { allowAllUsers := true, admins := [] } }

/-- Spec-side qualification predicate for C3, following the claim's
words: a template qualifies for `(projectKey, issueType)` when it is
non-deleted and active, its `assignedProjects` is empty (wildcard) or
contains the project key, and its `assignedIssueTypes` is empty
(wildcard) or the issue type is present (non-empty) and contained in
it; a missing issue type never matches a non-empty set. -/
def specScopeQual (t : Template) (projectKey issueType : String) : Bool :=
  !t.deleted && isActive t
    && (decide (t.assignedProjects.getD [] = [])
        || (t.assignedProjects.getD []).contains projectKey)
    && (decide (t.assignedIssueTypes.getD [] = [])
        || (!issueType.isEmpty && (t.assignedIssueTypes.getD []).contains issueType))

/-- Spec-side reference for C3: the first template in index order that
qualifies, and none when no template qualifies. -/
def specFindMatch (s : Store) (projectKey issueType : String) : Option Template :=
  (s.index.filterMap (fun id => storeGet s.tms id)).find?
    (fun t => specScopeQual t projectKey issueType)

/-- Prefill data returned for project `P` against `wStore`. -/
def wPrefill : PrefillData :=
  { templateId := "A", summary := some "S", description := some "C",
    applySummary := true, applyDescription := true, templateName := "Alpha" }

/-- Template A after reassigning its scope to project `X` and issue
type `Bug`. -/
def wTplA2 : Template :=
  { wTplA with
    assignedProjects := some ["X"], assignedIssueTypes := some ["Bug"], updatedAt := 9 }

/-- `wStore` after the reassignment of template A. -/
def wStoreAssigned : Store :=
  { index := ["B", "A"],
    tms := [("A", wTplA2), ("B", wTplB)],
    config := { allowAllUsers := true, admins := [] } }

/-- Creation payload carrying a projects argument. -/
def cPayloadP : CreatePayload :=
  { name := "New", content := "d", projects := .arr ["PX"] }

/-- The record stored for `cPayloadP`: the projects argument lands in
the unread `projects` field; no `active` flag, no `assignedProjects`. -/
def cTplNew : Template :=
  { id := "N1", name := "New", summary := "", content := "d", projects := ["PX"],
    owner := some "adm", createdAt := 3, updatedAt := 3 }

/-- The store after creating `cTplNew` in the empty installation. -/
def cStoreNew : Store :=
  { index := ["N1"], tms := [("N1", cTplNew)], config := {} }

/-- The already-active copy of `wTplB` (projects `P`). -/
def wTplBact : Template :=
  { wTplB with active := some true }

/-- Store holding the disjoint active template `wTplQ` and the active
`wTplBact`, for the reassignment-enforcement witness. -/
def wStoreQR : Store :=
  { index := ["B", "Q1"],
    tms := [("Q1", wTplQ), ("B", wTplBact)],
    config := { allowAllUsers := true, admins := [] } }

/-- `wTplBact` after reassigning its project scope to `R`. -/
def wTplBR : Template :=
  { wTplB with active := some true, assignedProjects := some ["R"], updatedAt := 7 }

/-- `wStoreQR` after the reassignment of the active template B: the
disjoint `wTplQ` is untouched. -/
def wStoreQR1 : Store :=
  { index := ["B", "Q1"],
    tms := [("Q1", wTplQ), ("B", wTplBR)],
    config := { allowAllUsers := true, admins := [] } }

/-- A principal with no admin rights and no ownership. -/
def cEve : User :=
  { accountId := "eve" }

/-- An inactive wildcard template owned by `own`. -/
def c4Tpl : Template :=
  { id := "T", name := "T", owner := some "own",
    assignedProjects := some [], assignedIssueTypes := some [] }

/-- A one-template store with the default (restrictive) config. -/
def c4Store : Store :=
  { index := ["T"], tms := [("T", c4Tpl)], config := {} }

/-- `c4Tpl` activated by the unauthorized `setTemplateActive` call. -/
def c4Tpl1 : Template :=
  { c4Tpl with active := some true, updatedAt := 4 }

/-- `c4Store` after the unauthorized activation. -/
def c4Store1 : Store :=
  { index := ["T"], tms := [("T", c4Tpl1)], config := {} }

/-- The clone produced by the unauthorized `duplicateTemplate` call. -/
def c4TplDup : Template :=
  { c4Tpl with
    id := "T2", name := "T (copy)", owner := some "eve",
    createdAt := 4, updatedAt := 4, deleted := false }

/-- `c4Store` after the unauthorized duplication. -/
def c4StoreDup : Store :=
  { index := ["T2", "T"], tms := [("T", c4Tpl), ("T2", c4TplDup)], config := {} }

/-- Update payload used by the C4 witness. -/
def c4PayUpd : UpdatePayload :=
  { id := "T", name := some "X" }

/-- An inactive, non-deleted template for the C8 scenarios. -/
def c8Tpl : Template :=
  { id := "A", name := "A", owner := some "own" }

/-- A permissive one-template store for the C8 scenarios. -/
def c8Store : Store :=
  { index := ["A"], tms := [("A", c8Tpl)],
    config := { allowAllUsers := true, admins := [] } }

/-- `c8Tpl` after the assignment call whose secondary axis was a
non-collection: the issue-type scope was coerced to the empty set. -/
def c8Tpl1 : Template :=
  { c8Tpl with
    assignedProjects := some ["P"], assignedIssueTypes := some [], updatedAt := 6 }

/-- `c8Store` after that assignment call. -/
def c8Store1 : Store :=
  { index := ["A"], tms := [("A", c8Tpl1)],
    config := { allowAllUsers := true, admins := [] } }

/-- A soft-deleted template. -/
def c8DelTpl : Template :=
  { id := "D", name := "D", deleted := true }

/-- A store holding only a soft-deleted template. -/
def c8DelStore : Store :=
  { index := ["D"], tms := [("D", c8DelTpl)], config := {} }

/-- An administrator principal (explicit admin flag). -/
def cAdmin : User :=
  { accountId := "adm", isAdmin := true }

/-- Creation payload for template A. -/
def cPayloadA : CreatePayload :=
  { name := "A", content := "descA" }

/-- Creation payload for template B. -/
def cPayloadB : CreatePayload :=
  { name := "B", content := "descB" }

/-- The record stored for template A at creation: no scope fields, no
active flag. -/
def cTplA0 : Template :=
  { id := "A", name := "A", summary := "", content := "descA", projects := [],
    owner := some "adm", createdAt := 0, updatedAt := 0 }

/-- The record stored for template B at creation. -/
def cTplB0 : Template :=
  { id := "B", name := "B", summary := "", content := "descB", projects := [],
    owner := some "adm", createdAt := 0, updatedAt := 0 }

/-- Template A after `updateTemplate` set it active. -/
def cTplA1 : Template :=
  { cTplA0 with active := some true, updatedAt := 1 }

/-- Template B after `updateTemplate` set it active. -/
def cTplB1 : Template :=
  { cTplB0 with active := some true, updatedAt := 2 }

/-- Update payload that only sets `active` to true, for template A. -/
def cPayUpdA : UpdatePayload :=
  { id := "A", active := some true }

/-- Update payload that only sets `active` to true, for template B. -/
def cPayUpdB : UpdatePayload :=
  { id := "B", active := some true }

/-- State after creating template A in the empty installation. -/
def cStore1 : Store :=
  { index := ["A"], tms := [("A", cTplA0)], config := {} }

/-- State after creating template B. -/
def cStore2 : Store :=
  { index := ["B", "A"], tms := [("A", cTplA0), ("B", cTplB0)], config := {} }

/-- State after activating template A through `updateTemplate`. -/
def cStore3 : Store :=
  { index := ["B", "A"], tms := [("A", cTplA1), ("B", cTplB0)], config := {} }

/-- State after also activating template B through `updateTemplate`:
two active wildcard templates covering every pair. -/
def cBadStore : Store :=
  { index := ["B", "A"], tms := [("A", cTplA1), ("B", cTplB1)], config := {} }

theorem storeGet_storeSet_self (tms : List (String × Template)) (k : String) (v : Template) :
    storeGet (storeSet tms k v) k = some v := by
  induction tms with
  | nil => simp [storeGet, storeSet]
  | cons hd rest ih =>
    obtain ⟨k0, t0⟩ := hd
    by_cases h : k0 = k
    · simp [storeGet, storeSet, h]
    · simp [storeGet, storeSet, h, ih]

theorem storeGet_storeSet_ne (tms : List (String × Template)) (k k' : String) (v : Template)
    (h : k' ≠ k) : storeGet (storeSet tms k v) k' = storeGet tms k' := by
  induction tms with
  | nil =>
    simp only [storeSet, storeGet]
    rw [if_neg fun hh => h hh.symm]
  | cons hd rest ih =>
    obtain ⟨k0, t0⟩ := hd
    by_cases hk : k0 = k
    · subst hk
      simp only [storeSet, if_pos rfl, storeGet]
      rw [if_neg fun hh => h hh.symm, if_neg fun hh => h hh.symm]
    · simp only [storeSet, if_neg hk, storeGet]
      by_cases hk' : k0 = k'
      · rw [if_pos hk', if_pos hk']
      · rw [if_neg hk', if_neg hk', ih]

theorem deactivate_deleted (o : Template) (now : Nat) :
    (deactivate o now).deleted = o.deleted := rfl

theorem deactivate_scope (T o : Template) (now : Nat) :
    scopeOverlapB T (deactivate o now) = scopeOverlapB T o := rfl

theorem isActive_deactivate (o : Template) (now : Nat) :
    isActive (deactivate o now) = false := rfl

theorem deactivate_deactivate (o : Template) (now : Nat) :
    deactivate (deactivate o now) now = deactivate o now := rfl

/-- The enforcement scan never touches keys outside the scanned list. -/
theorem enforceLoop_get_not_mem (T : Template) (now : Nat) (l : List String) :
    ∀ tms k, k ∉ l → storeGet (enforceLoop T now tms l).1 k = storeGet tms k := by
  induction l with
  | nil => intro tms k _; rfl
  | cons k0 rest ih =>
    intro tms k hk
    have hkrest : k ∉ rest := fun h => hk (List.mem_cons_of_mem _ h)
    have hk0 : k ≠ k0 := fun h => hk (h ▸ List.mem_cons_self _ _)
    by_cases hid : k0 = T.id
    · simp only [enforceLoop, if_pos hid]
      exact ih tms k hkrest
    · rcases hget : storeGet tms k0 with _ | o
      · simp only [enforceLoop, if_neg hid, hget]
        exact ih tms k hkrest
      · by_cases hdel : o.deleted = true
        · simp only [enforceLoop, if_neg hid, hget, hdel, if_pos]
          exact ih tms k hkrest
        · by_cases hact : isActive o = true
          · by_cases hov : scopeOverlapB T o = true
            · simp only [enforceLoop, if_neg hid, hget, hdel, hact, hov]
              simp only [Bool.not_true, Bool.false_eq_true, if_false, if_true]
              rw [ih (storeSet tms k0 (deactivate o now)) k hkrest]
              exact storeGet_storeSet_ne tms k0 k (deactivate o now) hk0
            · simp only [enforceLoop, if_neg hid, hget, hdel, hact, hov]
              simp only [Bool.not_true, Bool.false_eq_true, if_false, if_true]
              exact ih tms k hkrest
          · simp only [enforceLoop, if_neg hid, hget, hdel, hact]
            simp only [Bool.not_eq_true] at hact
            simp only [hact, Bool.not_false, Bool.false_eq_true, if_false, if_true]
            exact ih tms k hkrest

/-- After the enforcement scan, every key either holds its old record
or the deactivated copy of its old record. -/
theorem enforceLoop_get_or (T : Template) (now : Nat) (l : List String) :
    ∀ tms k, storeGet (enforceLoop T now tms l).1 k = storeGet tms k
      ∨ ∃ o, storeGet tms k = some o
          ∧ storeGet (enforceLoop T now tms l).1 k = some (deactivate o now) := by
  induction l with
  | nil => intro tms k; exact Or.inl rfl
  | cons k0 rest ih =>
    intro tms k
    by_cases hid : k0 = T.id
    · simp only [enforceLoop, if_pos hid]
      exact ih tms k
    · rcases hget : storeGet tms k0 with _ | o
      · simp only [enforceLoop, if_neg hid, hget]
        exact ih tms k
      · by_cases hdel : o.deleted = true
        · simp only [enforceLoop, if_neg hid, hget, hdel, if_pos]
          exact ih tms k
        · by_cases hact : isActive o = true
          · by_cases hov : scopeOverlapB T o = true
            · simp only [enforceLoop, if_neg hid, hget, hdel, hact, hov]
              simp only [Bool.not_true, Bool.false_eq_true, if_false, if_true]
              by_cases hk0 : k = k0
              · subst hk0
                rcases ih (storeSet tms k (deactivate o now)) k with h | ⟨o', ho1, ho2⟩
                · rw [storeGet_storeSet_self] at h
                  exact Or.inr ⟨o, hget, h⟩
                · rw [storeGet_storeSet_self] at ho1
                  cases ho1
                  rw [deactivate_deactivate] at ho2
                  exact Or.inr ⟨o, hget, ho2⟩
              · rcases ih (storeSet tms k0 (deactivate o now)) k with h | ⟨o', ho1, ho2⟩
                · rw [storeGet_storeSet_ne tms k0 k _ hk0] at h
                  exact Or.inl h
                · rw [storeGet_storeSet_ne tms k0 k _ hk0] at ho1
                  exact Or.inr ⟨o', ho1, ho2⟩
            · simp only [enforceLoop, if_neg hid, hget, hdel, hact, hov]
              simp only [Bool.not_true, Bool.false_eq_true, if_false, if_true]
              exact ih tms k
          · simp only [enforceLoop, if_neg hid, hget, hdel, hact]
            simp only [Bool.not_eq_true] at hact
            simp only [hact, Bool.not_false, Bool.false_eq_true, if_false, if_true]
            exact ih tms k

/-- After the enforcement scan, no scanned key other than the
template's own id holds an active, non-deleted, overlapping record. -/
theorem enforceLoop_post (T : Template) (now : Nat) (l : List String) :
    ∀ tms k, k ∈ l → k ≠ T.id → ∀ o,
      storeGet (enforceLoop T now tms l).1 k = some o →
      o.deleted = false → isActive o = true → scopeOverlapB T o = false := by
  induction l with
  | nil => intro tms k hk; exact absurd hk (List.not_mem_nil k)
  | cons k0 rest ih =>
    intro tms k hk hkT o hgetres hodel hoact
    by_cases hid : k0 = T.id
    · simp only [enforceLoop, if_pos hid] at hgetres
      rcases List.mem_cons.mp hk with hk0 | hkrest
      · exact absurd (hk0.trans hid) hkT
      · exact ih tms k hkrest hkT o hgetres hodel hoact
    · rcases hget : storeGet tms k0 with _ | o0
      · simp only [enforceLoop, if_neg hid, hget] at hgetres
        rcases List.mem_cons.mp hk with hk0 | hkrest
        · subst hk0
          rcases enforceLoop_get_or T now rest tms k with h | ⟨o', ho1, _⟩
          · rw [h, hget] at hgetres; cases hgetres
          · rw [hget] at ho1; cases ho1
        · exact ih tms k hkrest hkT o hgetres hodel hoact
      · by_cases hdel : o0.deleted = true
        · simp only [enforceLoop, if_neg hid, hget, hdel, if_pos] at hgetres
          rcases List.mem_cons.mp hk with hk0 | hkrest
          · subst hk0
            rcases enforceLoop_get_or T now rest tms k with h | ⟨o', ho1, ho2⟩
            · rw [h, hget] at hgetres
              cases hgetres
              rw [hdel] at hodel; cases hodel
            · rw [hget] at ho1
              cases ho1
              rw [ho2] at hgetres
              cases hgetres
              rw [deactivate_deleted, hdel] at hodel; cases hodel
          · exact ih tms k hkrest hkT o hgetres hodel hoact
        · by_cases hact : isActive o0 = true
          · by_cases hov : scopeOverlapB T o0 = true
            · simp only [enforceLoop, if_neg hid, hget, hdel, hact, hov] at hgetres
              simp only [Bool.not_true, Bool.false_eq_true, if_false, if_true] at hgetres
              rcases List.mem_cons.mp hk with hk0 | hkrest
              · subst hk0
                rcases enforceLoop_get_or T now rest (storeSet tms k (deactivate o0 now)) k
                  with h | ⟨o', ho1, ho2⟩
                · rw [h, storeGet_storeSet_self] at hgetres
                  cases hgetres
                  rw [isActive_deactivate] at hoact; cases hoact
                · rw [storeGet_storeSet_self] at ho1
                  cases ho1
                  rw [ho2] at hgetres
                  cases hgetres
                  rw [deactivate_deactivate, isActive_deactivate] at hoact; cases hoact
              · exact ih (storeSet tms k0 (deactivate o0 now)) k hkrest hkT o hgetres hodel hoact
            · simp only [enforceLoop, if_neg hid, hget, hdel, hact, hov] at hgetres
              simp only [Bool.not_true, Bool.false_eq_true, if_false, if_true] at hgetres
              rcases List.mem_cons.mp hk with hk0 | hkrest
              · subst hk0
                rcases enforceLoop_get_or T now rest tms k with h | ⟨o', ho1, ho2⟩
                · rw [h, hget] at hgetres
                  cases hgetres
                  simpa using hov
                · rw [hget] at ho1
                  cases ho1
                  rw [ho2] at hgetres
                  cases hgetres
                  rw [isActive_deactivate] at hoact; cases hoact
              · exact ih tms k hkrest hkT o hgetres hodel hoact
          · simp only [enforceLoop, if_neg hid, hget, hdel, hact] at hgetres
            simp only [Bool.not_eq_true] at hact
            simp only [hact, Bool.not_false, Bool.false_eq_true, if_false, if_true] at hgetres
            rcases List.mem_cons.mp hk with hk0 | hkrest
            · subst hk0
              rcases enforceLoop_get_or T now rest tms k with h | ⟨o', ho1, ho2⟩
              · rw [h, hget] at hgetres
                cases hgetres
                rw [hact] at hoact; cases hoact
              · rw [hget] at ho1
                cases ho1
                rw [ho2] at hgetres
                cases hgetres
                rw [isActive_deactivate] at hoact; cases hoact
            · exact ih tms k hkrest hkT o hgetres hodel hoact

/-- If no scanned key holds an active, non-deleted, overlapping
record, the enforcement scan is the identity and deactivates nothing. -/
theorem enforceLoop_id (T : Template) (now : Nat) (l : List String) :
    ∀ tms, (∀ k, k ∈ l → k ≠ T.id → ∀ o, storeGet tms k = some o →
        o.deleted = false → isActive o = true → scopeOverlapB T o = false) →
      enforceLoop T now tms l = (tms, []) := by
  induction l with
  | nil => intro tms _; rfl
  | cons k0 rest ih =>
    intro tms hq
    have hqrest : ∀ k, k ∈ rest → k ≠ T.id → ∀ o, storeGet tms k = some o →
        o.deleted = false → isActive o = true → scopeOverlapB T o = false :=
      fun k hk => hq k (List.mem_cons_of_mem _ hk)
    by_cases hid : k0 = T.id
    · simp only [enforceLoop, if_pos hid]
      exact ih tms hqrest
    · rcases hget : storeGet tms k0 with _ | o0
      · simp only [enforceLoop, if_neg hid, hget]
        exact ih tms hqrest
      · by_cases hdel : o0.deleted = true
        · simp only [enforceLoop, if_neg hid, hget, hdel, if_pos]
          exact ih tms hqrest
        · by_cases hact : isActive o0 = true
          · have hov : scopeOverlapB T o0 = false :=
              hq k0 (List.mem_cons_self _ _) hid o0 hget (Bool.not_eq_true _ ▸ hdel) hact
            simp only [enforceLoop, if_neg hid, hget, hdel, hact, hov]
            simp only [Bool.not_true, Bool.false_eq_true, if_false, if_true]
            exact ih tms hqrest
          · simp only [enforceLoop, if_neg hid, hget, hdel, hact]
            simp only [Bool.not_eq_true] at hact
            simp only [hact, Bool.not_false, Bool.false_eq_true, if_false, if_true]
            exact ih tms hqrest

/-- On a duplicate-free scan list the deactivated ids are exactly the
scanned keys, other than the template's own id, whose pre-scan record
is active, non-deleted and overlapping — in scan order. -/
theorem enforceLoop_ds (T : Template) (now : Nat) (l : List String) :
    ∀ tms, l.Nodup →
      (enforceLoop T now tms l).2
        = l.filter (fun k => (k != T.id) && qualB tms T k) := by
  induction l with
  | nil => intro tms _; rfl
  | cons k0 rest ih =>
    intro tms hnd
    have hk0rest : k0 ∉ rest := (List.nodup_cons.mp hnd).1
    have hndrest : rest.Nodup := (List.nodup_cons.mp hnd).2
    by_cases hid : k0 = T.id
    · simp only [enforceLoop, if_pos hid]
      rw [ih tms hndrest, List.filter_cons]
      rw [if_neg (by simp [hid])]
    · rcases hget : storeGet tms k0 with _ | o0
      · simp only [enforceLoop, if_neg hid, hget]
        rw [ih tms hndrest, List.filter_cons]
        rw [if_neg (by simp [qualB, hget])]
      · by_cases hdel : o0.deleted = true
        · simp only [enforceLoop, if_neg hid, hget, hdel, if_pos]
          rw [ih tms hndrest, List.filter_cons]
          rw [if_neg (by simp [qualB, hget, hdel])]
        · by_cases hact : isActive o0 = true
          · by_cases hov : scopeOverlapB T o0 = true
            · simp only [enforceLoop, if_neg hid, hget, hdel, hact, hov]
              simp only [Bool.not_true, Bool.false_eq_true, if_false, if_true]
              rw [List.filter_cons]
              rw [if_pos (by simp [qualB, hget, hdel, hact, hov, hid])]
              rw [ih (storeSet tms k0 (deactivate o0 now)) hndrest]
              have : ∀ x ∈ rest,
                  ((x != T.id) && qualB (storeSet tms k0 (deactivate o0 now)) T x)
                    = ((x != T.id) && qualB tms T x) := by
                intro x hx
                have hxk0 : x ≠ k0 := fun h => hk0rest (h ▸ hx)
                rw [qualB, qualB, storeGet_storeSet_ne tms k0 x _ hxk0]
              rw [List.filter_congr this]
            · simp only [enforceLoop, if_neg hid, hget, hdel, hact, hov]
              simp only [Bool.not_true, Bool.false_eq_true, if_false, if_true]
              rw [ih tms hndrest, List.filter_cons]
              rw [if_neg (by simp [qualB, hget, hdel, hact, hov])]
          · simp only [enforceLoop, if_neg hid, hget, hdel, hact]
            simp only [Bool.not_eq_true] at hact
            simp only [hact, Bool.not_false, Bool.false_eq_true, if_false, if_true]
            rw [ih tms hndrest, List.filter_cons]
            have hq0 : qualB tms T k0 = false := by
              simp [qualB, hget, hact]
            rw [if_neg (by simp [hq0])]

/-- Characterization of `setsOverlap`: true exactly when one side is
empty (wildcard) or the two share an element. -/
theorem setsOverlap_iff (a b : List String) :
    setsOverlap a b = true ↔ (a = [] ∨ b = [] ∨ ∃ x, x ∈ a ∧ x ∈ b) := by
  rcases a with _ | ⟨x, xs⟩
  · simp [setsOverlap]
  · rcases b with _ | ⟨y, ys⟩
    · simp [setsOverlap]
    · simp only [setsOverlap, List.length_cons]
      rw [if_neg (by simp), if_neg (by simp)]
      simp only [List.any_eq_true]
      constructor
      · rintro ⟨z, hz, hc⟩
        exact Or.inr (Or.inr ⟨z, hz, List.elem_iff.mp hc⟩)
      · rintro (h | h | ⟨z, hz1, hz2⟩)
        · exact absurd h (List.cons_ne_nil _ _)
        · exact absurd h (List.cons_ne_nil _ _)
        · exact ⟨z, hz1, List.elem_iff.mpr hz2⟩

/-- Two templates covering a common concrete pair have overlapping
scopes on both axes. -/
theorem covers_overlap (t o : Template) (pk it : String)
    (h1 : coversPair t pk it = true) (h2 : coversPair o pk it = true) :
    scopeOverlapB t o = true := by
  unfold coversPair at h1 h2
  simp only [Bool.and_eq_true, Bool.or_eq_true] at h1 h2
  obtain ⟨hp1, hi1⟩ := h1
  obtain ⟨hp2, hi2⟩ := h2
  unfold scopeOverlapB setsOverlapOpt
  simp only [Bool.and_eq_true]
  constructor
  · rw [setsOverlap_iff]
    rcases hp1 with he1 | hc1
    · exact Or.inl (List.isEmpty_iff.mp he1)
    · rcases hp2 with he2 | hc2
      · exact Or.inr (Or.inl (List.isEmpty_iff.mp he2))
      · exact Or.inr (Or.inr ⟨pk, List.elem_iff.mp hc1, List.elem_iff.mp hc2⟩)
  · rw [setsOverlap_iff]
    rcases hi1 with he1 | hc1
    · exact Or.inl (List.isEmpty_iff.mp he1)
    · rcases hi2 with he2 | hc2
      · exact Or.inr (Or.inl (List.isEmpty_iff.mp he2))
      · exact Or.inr (Or.inr ⟨it, List.elem_iff.mp hc1.2, List.elem_iff.mp hc2.2⟩)

/-- A successful record lookup exhibits a list entry. -/
theorem storeGet_mem (tms : List (String × Template)) (k : String) (t : Template)
    (h : storeGet tms k = some t) : (k, t) ∈ tms := by
  induction tms with
  | nil => cases h
  | cons hd rest ih =>
    obtain ⟨k0, t0⟩ := hd
    by_cases hk : k0 = k
    · subst hk
      simp only [storeGet, if_pos rfl] at h
      cases h
      exact List.mem_cons_self _ _
    · simp only [storeGet, if_neg hk] at h
      exact List.mem_cons_of_mem _ (ih h)

/-- Decidable sufficient condition for store well-formedness. -/
theorem WF_of_entries (s : Store)
    (h1 : ∀ p ∈ s.tms, p.2.id = p.1 ∧ p.1 ∈ s.index)
    (h2 : s.index.Nodup) : WF s :=
  ⟨fun k t ht => h1 (k, t) (storeGet_mem _ _ _ ht), h2⟩

/-- What a successful `setTemplateActive(id, true)` call produces on a
well-formed store: the activated record, the absence of any other
active overlapping record afterwards, and the deactivation list as a
filter of the index. -/
theorem setTemplateActive_post (s : Store) (u : Option User) (id : String)
    (now : Nat) (s1 : Store) (t1 : Template) (ds : List String)
    (hwf : WF s)
    (hok : setTemplateActive s u id true now = .ok (s1, t1, ds)) :
    t1.id = id
    ∧ (∀ k o, storeGet s1.tms k = some o → k ≠ id → o.deleted = false →
        scopeOverlapB t1 o = true → isActive o = false)
    ∧ ds = s.index.filter (fun k => (k != id) && qualB s.tms t1 k) := by
  by_cases hid : id.isEmpty = true
  · simp only [setTemplateActive, hid, if_true] at hok
    cases hok
  · simp only [Bool.not_eq_true] at hid
    simp only [setTemplateActive, hid, Bool.false_eq_true, if_false] at hok
    rcases hget : storeGet s.tms id with _ | tpl
    · rw [hget] at hok
      cases hok
    · rw [hget] at hok
      by_cases hdel : tpl.deleted = true
      · simp only [hdel, if_true] at hok
        cases hok
      · simp only [hdel, Bool.false_eq_true, if_false] at hok
        simp only [isActive, Option.getD_some, if_true, enforceUniqueActiveTemplates,
          Bool.not_true, Bool.false_eq_true, if_false] at hok
        simp only [Except.ok.injEq, Prod.mk.injEq] at hok
        obtain ⟨hs1, ht1, hds⟩ := hok
        rw [ht1] at hs1 hds
        have htid : tpl.id = id := (hwf.1 id tpl hget).1
        have ht1id : t1.id = id := by rw [← ht1]; exact htid
        refine ⟨ht1id, ?_, ?_⟩
        · intro k o hko hkid hodel hov
          by_cases hoact : isActive o = true
          · exfalso
            rw [← hs1] at hko
            simp only at hko
            rcases enforceLoop_get_or t1 now s.index (storeSet s.tms id t1) k
              with heq | ⟨o0, ho1, ho2⟩
            · have hko2 : storeGet (storeSet s.tms id t1) k = some o := by
                rw [← heq]; exact hko
              rw [storeGet_storeSet_ne s.tms id k t1 hkid] at hko2
              have hkmem : k ∈ s.index := (hwf.1 k o hko2).2
              have := enforceLoop_post t1 now s.index (storeSet s.tms id t1) k hkmem
                (ht1id ▸ hkid) o hko hodel hoact
              rw [this] at hov
              cases hov
            · rw [ho2] at hko
              cases hko
              rw [isActive_deactivate] at hoact
              cases hoact
          · simp only [Bool.not_eq_true] at hoact
            exact hoact
        · rw [← hds]
          rw [enforceLoop_ds t1 now s.index (storeSet s.tms id t1) hwf.2]
          apply List.filter_congr
          intro x hx
          by_cases hxid : x = id
          · subst hxid
            rw [ht1id]
            simp
          · rw [ht1id, qualB, qualB, storeGet_storeSet_ne s.tms id x t1 hxid]

/-- C7: `setsOverlap` is symmetric; an empty set (wildcard axis)
overlaps anything, including another wildcard; and on two non-empty
sets it is true exactly when they share an element. -/
theorem setsOverlap_props (a b : List String) :
    setsOverlap a b = setsOverlap b a
    ∧ (a = [] ∨ b = [] → setsOverlap a b = true)
    ∧ (a ≠ [] → b ≠ [] → (setsOverlap a b = true ↔ ∃ x, x ∈ a ∧ x ∈ b)) := by
  refine ⟨?_, ?_, ?_⟩
  · rw [Bool.eq_iff_iff, setsOverlap_iff, setsOverlap_iff]
    constructor
    · rintro (h | h | ⟨x, h1, h2⟩)
      · exact Or.inr (Or.inl h)
      · exact Or.inl h
      · exact Or.inr (Or.inr ⟨x, h2, h1⟩)
    · rintro (h | h | ⟨x, h1, h2⟩)
      · exact Or.inr (Or.inl h)
      · exact Or.inl h
      · exact Or.inr (Or.inr ⟨x, h2, h1⟩)
  · intro h
    rcases h with h | h
    · exact (setsOverlap_iff a b).mpr (Or.inl h)
    · exact (setsOverlap_iff a b).mpr (Or.inr (Or.inl h))
  · intro ha hb
    rw [setsOverlap_iff]
    constructor
    · rintro (h | h | hx)
      · exact absurd h ha
      · exact absurd h hb
      · exact hx
    · exact fun hx => Or.inr (Or.inr hx)

/-- Witness for C7 at concrete inputs. -/
theorem setsOverlap_props_witness :
    setsOverlap ["a"] ["b", "a"] = setsOverlap ["b", "a"] ["a"]
    ∧ setsOverlap [] ["b"] = true
    ∧ (setsOverlap ["a"] ["b", "a"] = true ↔ ∃ x, x ∈ ["a"] ∧ x ∈ ["b", "a"]) :=
  ⟨(setsOverlap_props ["a"] ["b", "a"]).1,
   (setsOverlap_props [] ["b"]).2.1 (Or.inl rfl),
   (setsOverlap_props ["a"] ["b", "a"]).2.2 (by decide) (by decide)⟩

/-- C6: running `enforceUniqueActiveTemplates` twice for the same
active template with no intervening state change deactivates nothing on
the second run. -/
theorem enforceUniqueness_idempotent (s : Store) (T : Template) (now now2 : Nat)
    (hT : isActive T = true) :
    (enforceUniqueActiveTemplates (enforceUniqueActiveTemplates s T now).1 T now2).2 = [] := by
  simp only [enforceUniqueActiveTemplates, hT, Bool.not_true, Bool.false_eq_true, if_false]
  rw [enforceLoop_id T now2 s.index (enforceLoop T now s.tms s.index).1
    (fun k hk hkT o hget hdel hact => enforceLoop_post T now s.index s.tms k hk hkT o hget hdel hact)]

/-- Witness for C6 at a concrete active template and store. -/
theorem enforceUniqueness_idempotent_witness :
    isActive wTplForce = true
    ∧ (enforceUniqueActiveTemplates
        (enforceUniqueActiveTemplates wStore wTplForce 7).1 wTplForce 8).2 = [] :=
  ⟨rfl, enforceUniqueness_idempotent wStore wTplForce 7 8 rfl⟩

/-- C2: after a successful `setTemplateActive(T, true)` on a
well-formed store, no other stored non-deleted template whose scope
overlaps the activated template on both axes remains active, and the
call returns exactly the deactivated ids: the index entries, in index
order, other than the activated id, whose pre-state record was active,
non-deleted and overlapping. -/
theorem setTemplateActive_enforces_uniqueness (s : Store) (u : Option User) (id : String)
    (now : Nat) (s1 : Store) (t1 : Template) (ds : List String)
    (hwf : WF s)
    (hok : setTemplateActive s u id true now = .ok (s1, t1, ds)) :
    (∀ k o, storeGet s1.tms k = some o → k ≠ id → o.deleted = false →
        scopeOverlapB t1 o = true → isActive o = false)
    ∧ ds = s.index.filter (fun k => (k != id) && qualB s.tms t1 k) :=
  ⟨(setTemplateActive_post s u id now s1 t1 ds hwf hok).2.1,
   (setTemplateActive_post s u id now s1 t1 ds hwf hok).2.2⟩

/-- Witness for C2: activating template B deactivates the overlapping
active wildcard template A and returns exactly its id. -/
theorem setTemplateActive_enforces_uniqueness_witness :
    WF wStore
    ∧ setTemplateActive wStore none "B" true 5 = .ok (wStoreB, wTplB1, ["A"])
    ∧ (∀ k o, storeGet wStoreB.tms k = some o → k ≠ "B" → o.deleted = false →
        scopeOverlapB wTplB1 o = true → isActive o = false)
    ∧ ["A"] = wStore.index.filter (fun k => (k != "B") && qualB wStore.tms wTplB1 k) := by
  have hwf : WF wStore := WF_of_entries wStore (by decide) (by decide)
  have hok : setTemplateActive wStore none "B" true 5 = .ok (wStoreB, wTplB1, ["A"]) := by
    decide
  exact ⟨hwf, hok,
    (setTemplateActive_enforces_uniqueness wStore none "B" 5 wStoreB wTplB1 ["A"] hwf hok).1,
    (setTemplateActive_enforces_uniqueness wStore none "B" 5 wStoreB wTplB1 ["A"] hwf hok).2⟩

/-- After the enforcement scan that follows a write of template `T` at
its own key `id`, no other stored active, non-deleted record overlaps
`T`. -/
theorem enforce_write_post (s : Store) (id : String) (T : Template) (now : Nat)
    (hwf : WF s) (hTid : T.id = id) (k : String) (o : Template)
    (hko : storeGet (enforceLoop T now (storeSet s.tms id T) s.index).1 k = some o)
    (hkid : k ≠ id) (hodel : o.deleted = false) (hoact : isActive o = true) :
    scopeOverlapB T o = false := by
  rcases enforceLoop_get_or T now s.index (storeSet s.tms id T) k with heq | ⟨o0, ho1, ho2⟩
  · have hko2 : storeGet (storeSet s.tms id T) k = some o := by
      rw [← heq]; exact hko
    rw [storeGet_storeSet_ne s.tms id k T hkid] at hko2
    have hkmem : k ∈ s.index := (hwf.1 k o hko2).2
    have hkT : k ≠ T.id := by rw [hTid]; exact hkid
    exact enforceLoop_post T now s.index (storeSet s.tms id T) k hkmem hkT o hko hodel hoact
  · rw [ho2] at hko
    cases hko
    rw [isActive_deactivate] at hoact
    cases hoact

/-- Shape of the common tail of both assign handlers: when the call
returns ok and the returned template is active, the result store is the
enforcement scan over the store holding the written template. -/
theorem enforce_tail_shape (s : Store) (id : String) (t3 : Template) (now : Nat)
    (s1 : Store) (t1 : Template) (ds : List String)
    (hok : (if isActive t3 = true then
          (Except.ok
            ((enforceUniqueActiveTemplates { s with tms := storeSet s.tms id t3 } t3 now).1,
              t3,
              (enforceUniqueActiveTemplates { s with tms := storeSet s.tms id t3 } t3 now).2)
            : Except Err (Store × Template × List String))
        else .ok ({ s with tms := storeSet s.tms id t3 }, t3, [])) = .ok (s1, t1, ds))
    (hact : isActive t1 = true) :
    t1 = t3 ∧ s1.tms = (enforceLoop t1 now (storeSet s.tms id t1) s.index).1 := by
  by_cases h3 : isActive t3 = true
  · rw [if_pos h3] at hok
    simp only [enforceUniqueActiveTemplates, h3, Bool.not_true, Bool.false_eq_true, if_false,
      Except.ok.injEq, Prod.mk.injEq] at hok
    obtain ⟨hs1, ht1, hds⟩ := hok
    refine ⟨ht1.symm, ?_⟩
    rw [← ht1, ← hs1]
  · rw [if_neg h3] at hok
    simp only [Except.ok.injEq, Prod.mk.injEq] at hok
    rw [← hok.2.1] at hact
    exact absurd hact h3

/-- Shape of a successful `assignTemplateToProjects` call whose
returned template is active: the stored template was found at the
given id and the result store is the enforcement scan over the written
store. -/
theorem assignProjects_ok_shape (s : Store) (u : Option User) (pa : String → Bool)
    (id : String) (projects issueTypes : JVal) (now : Nat)
    (s1 : Store) (t1 : Template) (ds : List String)
    (hok : assignTemplateToProjects s u pa id projects issueTypes now = .ok (s1, t1, ds))
    (hact : isActive t1 = true) :
    ∃ tpl, storeGet s.tms id = some tpl ∧ t1.id = tpl.id
      ∧ s1.tms = (enforceLoop t1 now (storeSet s.tms id t1) s.index).1 := by
  by_cases hid : id.isEmpty = true
  · simp only [assignTemplateToProjects, hid, if_true] at hok
    cases hok
  · rcases projects with _ | z | ps
    · simp only [assignTemplateToProjects] at hok
      rw [if_neg (by simp [hid])] at hok
      cases hok
    · simp only [assignTemplateToProjects] at hok
      rw [if_neg (by simp [hid])] at hok
      cases hok
    · rcases hget : storeGet s.tms id with _ | tpl
      · simp only [assignTemplateToProjects, hget] at hok
        rw [if_neg (by simp [hid])] at hok
        cases hok
      · simp only [assignTemplateToProjects, hget] at hok
        rw [if_neg (by simp [hid])] at hok
        by_cases hdel : tpl.deleted = true
        · rw [if_pos hdel] at hok
          cases hok
        · rw [if_neg hdel] at hok
          by_cases hauth : assignProjectsAuthorized s u pa tpl ps = true
          · simp only [hauth, Bool.not_true, Bool.false_eq_true, if_false] at hok
            rcases issueTypes with _ | z2 | xs2 <;>
              obtain ⟨ht1, hs1tms⟩ := enforce_tail_shape s id _ now s1 t1 ds hok hact <;>
              exact ⟨tpl, rfl, by rw [ht1], hs1tms⟩
          · simp only [Bool.not_eq_true] at hauth
            simp only [hauth, Bool.not_false, if_true] at hok
            cases hok

/-- Shape of a successful `assignTemplateToIssueTypes` call whose
returned template is active, mirroring `assignProjects_ok_shape`. -/
theorem assignIssueTypes_ok_shape (s : Store) (u : Option User) (id : String)
    (issueTypes projects : JVal) (now : Nat)
    (s1 : Store) (t1 : Template) (ds : List String)
    (hok : assignTemplateToIssueTypes s u id issueTypes projects now = .ok (s1, t1, ds))
    (hact : isActive t1 = true) :
    ∃ tpl, storeGet s.tms id = some tpl ∧ t1.id = tpl.id
      ∧ s1.tms = (enforceLoop t1 now (storeSet s.tms id t1) s.index).1 := by
  by_cases hid : id.isEmpty = true
  · simp only [assignTemplateToIssueTypes, hid, if_true] at hok
    cases hok
  · rcases issueTypes with _ | z | its
    · simp only [assignTemplateToIssueTypes] at hok
      rw [if_neg (by simp [hid])] at hok
      cases hok
    · simp only [assignTemplateToIssueTypes] at hok
      rw [if_neg (by simp [hid])] at hok
      cases hok
    · rcases hget : storeGet s.tms id with _ | tpl
      · simp only [assignTemplateToIssueTypes, hget] at hok
        rw [if_neg (by simp [hid])] at hok
        cases hok
      · simp only [assignTemplateToIssueTypes, hget] at hok
        rw [if_neg (by simp [hid])] at hok
        by_cases hdel : tpl.deleted = true
        · rw [if_pos hdel] at hok
          cases hok
        · rw [if_neg hdel] at hok
          by_cases hauth : ownerOrAdminAuthorized s u tpl.owner = true
          · simp only [hauth, Bool.not_true, Bool.false_eq_true, if_false] at hok
            rcases projects with _ | z2 | xs2 <;>
              obtain ⟨ht1, hs1tms⟩ := enforce_tail_shape s id _ now s1 t1 ds hok hact <;>
              exact ⟨tpl, rfl, by rw [ht1], hs1tms⟩
          · simp only [Bool.not_eq_true] at hauth
            simp only [hauth, Bool.not_false, if_true] at hok
            cases hok

/-- C1 (amended): after every enforcing transition — `setTemplateActive
(id, true)`, or a successful `assignTemplateToProjects` /
`assignTemplateToIssueTypes` whose written template is active — on a
well-formed store, the written template is the only stored active,
non-deleted template covering any concrete (project, issueType) pair
that its own scope covers.  The claim's universal form over all
reachable states is false because `updateTemplate` performs no
uniqueness enforcement (see `updateTemplate_breaks_invariant`). -/
theorem enforcing_transitions_unique_cover (s : Store) (u : Option User)
    (pa : String → Bool) (id : String) (projects issueTypes : JVal) (now : Nat)
    (s1 : Store) (t1 : Template) (ds : List String) (hwf : WF s)
    (hok : setTemplateActive s u id true now = .ok (s1, t1, ds)
      ∨ assignTemplateToProjects s u pa id projects issueTypes now = .ok (s1, t1, ds)
      ∨ assignTemplateToIssueTypes s u id issueTypes projects now = .ok (s1, t1, ds))
    (hact : isActive t1 = true)
    (pk it k : String) (o : Template)
    (hko : storeGet s1.tms k = some o) (hkid : k ≠ id)
    (hodel : o.deleted = false) (hoact : isActive o = true)
    (hcov1 : coversPair t1 pk it = true) : coversPair o pk it = false := by
  by_cases hcov2 : coversPair o pk it = true
  · exfalso
    have hov : scopeOverlapB t1 o = true := covers_overlap t1 o pk it hcov1 hcov2
    rcases hok with hok | hok | hok
    · have hfalse := (setTemplateActive_post s u id now s1 t1 ds hwf hok).2.1 k o hko hkid
        hodel hov
      rw [hfalse] at hoact
      cases hoact
    · obtain ⟨tpl, hget2, ht1tpl, hs1tms⟩ :=
        assignProjects_ok_shape s u pa id projects issueTypes now s1 t1 ds hok hact
      have ht1id : t1.id = id := ht1tpl.trans (hwf.1 id tpl hget2).1
      rw [hs1tms] at hko
      have hfalse := enforce_write_post s id t1 now hwf ht1id k o hko hkid hodel hoact
      rw [hfalse] at hov
      cases hov
    · obtain ⟨tpl, hget2, ht1tpl, hs1tms⟩ :=
        assignIssueTypes_ok_shape s u id issueTypes projects now s1 t1 ds hok hact
      have ht1id : t1.id = id := ht1tpl.trans (hwf.1 id tpl hget2).1
      rw [hs1tms] at hko
      have hfalse := enforce_write_post s id t1 now hwf ht1id k o hko hkid hodel hoact
      rw [hfalse] at hov
      cases hov
  · simp only [Bool.not_eq_true] at hcov2
    exact hcov2

/-- Witness for the amended C1: an activation and a reassignment of an
already-active template each leave the disjoint active template Q1
active, and Q1 does not cover the pair covered by the written
template. -/
theorem enforcing_transitions_unique_cover_witness :
    WF wStoreQ
    ∧ setTemplateActive wStoreQ none "B" true 5 = .ok (wStoreQ1, wTplB1, [])
    ∧ coversPair wTplB1 "P" "" = true
    ∧ coversPair wTplQ "P" "" = false
    ∧ WF wStoreQR
    ∧ assignTemplateToProjects wStoreQR none (fun _ => false) "B" (.arr ["R"]) .undef 7
        = .ok (wStoreQR1, wTplBR, [])
    ∧ coversPair wTplBR "R" "" = true
    ∧ coversPair wTplQ "R" "" = false := by
  have hwf1 : WF wStoreQ := WF_of_entries wStoreQ (by decide) (by decide)
  have hok1 : setTemplateActive wStoreQ none "B" true 5 = .ok (wStoreQ1, wTplB1, []) := by
    decide
  have hwf2 : WF wStoreQR := WF_of_entries wStoreQR (by decide) (by decide)
  have hok2 : assignTemplateToProjects wStoreQR none (fun _ => false) "B"
      (.arr ["R"]) .undef 7 = .ok (wStoreQR1, wTplBR, []) := by decide
  refine ⟨hwf1, hok1, by decide, ?_, hwf2, hok2, by decide, ?_⟩
  · exact enforcing_transitions_unique_cover wStoreQ none (fun _ => false) "B" .undef .undef 5
      wStoreQ1 wTplB1 [] hwf1 (Or.inl hok1) (by decide) "P" "" "Q1" wTplQ (by decide)
      (by decide) (by decide) (by decide) (by decide)
  · exact enforcing_transitions_unique_cover wStoreQR none (fun _ => false) "B"
      (.arr ["R"]) .undef 7 wStoreQR1 wTplBR [] hwf2 (Or.inr (Or.inl hok2)) (by decide)
      "R" "" "Q1" wTplQ (by decide) (by decide) (by decide) (by decide) (by decide)

/-- C1 (counterexample): a store holding two active, non-deleted
wildcard templates, which jointly cover every concrete (project,
issueType) pair, is reachable from the empty installation through
exposed resolver calls, because `updateTemplate` can set `active`
without running the uniqueness enforcement. -/
theorem updateTemplate_breaks_invariant :
    Reachable cBadStore ∧ ¬ OneActivePerScope cBadStore := by
  constructor
  · have h1 : Step initStore cStore1 :=
      @Step.create initStore (some cAdmin) cPayloadA "A" 0 cStore1 cTplA0 (by decide)
    have h2 : Step cStore1 cStore2 :=
      @Step.create cStore1 (some cAdmin) cPayloadB "B" 0 cStore2 cTplB0 (by decide)
    have h3 : Step cStore2 cStore3 :=
      @Step.update cStore2 (some cAdmin) cPayUpdA 1 cStore3 cTplA1 (by decide)
    have h4 : Step cStore3 cBadStore :=
      @Step.update cStore3 (some cAdmin) cPayUpdB 2 cBadStore cTplB1 (by decide)
    exact Relation.ReflTransGen.head h1 (Relation.ReflTransGen.head h2
      (Relation.ReflTransGen.head h3 (Relation.ReflTransGen.single h4)))
  · intro h
    exact h "P" "" "A" "B" cTplA1 cTplB1 (by decide) (by decide) (by decide)
      (by decide) (by decide) (by decide) (by decide) (by decide) (by decide)

theorem isEmpty_eq_decide (l : List String) : l.isEmpty = decide (l = []) := by
  cases l <;> simp

/-- The spec-side qualification predicate computes the same boolean as
the matching loop's inline conditions. -/
theorem specScopeQual_eq (t : Template) (pk it : String) :
    specScopeQual t pk it
      = (!t.deleted && (isActive t &&
          (((t.assignedProjects.getD []).isEmpty || (t.assignedProjects.getD []).contains pk)
            && ((t.assignedIssueTypes.getD []).isEmpty
              || (!it.isEmpty && (t.assignedIssueTypes.getD []).contains it))))) := by
  unfold specScopeQual
  rw [isEmpty_eq_decide, isEmpty_eq_decide]
  simp [Bool.and_assoc]

/-- The hand-written scan of `findLoop` is the first-match search of
the index's resolvable records. -/
theorem findLoop_eq_find (tms : List (String × Template)) (pk it : String)
    (l : List String) :
    findLoop tms pk it l
      = (l.filterMap (fun id => storeGet tms id)).find?
          (fun t => specScopeQual t pk it) := by
  induction l with
  | nil => rfl
  | cons k0 rest ih =>
    rcases hget : storeGet tms k0 with _ | tpl
    · simp only [findLoop, hget, List.filterMap_cons]
      exact ih
    · simp only [findLoop, hget, List.filterMap_cons]
      by_cases hdel : tpl.deleted = true
      · rw [if_pos hdel]
        rw [List.find?_cons_of_neg]
        · exact ih
        · rw [specScopeQual_eq, hdel]
          simp
      · rw [if_neg hdel]
        simp only [Bool.not_eq_true] at hdel
        by_cases hact : isActive tpl = true
        · rw [hact]
          simp only [Bool.not_true, Bool.false_eq_true, if_false]
          by_cases hmatch :
              (((tpl.assignedProjects.getD []).isEmpty
                  || (tpl.assignedProjects.getD []).contains pk)
                && ((tpl.assignedIssueTypes.getD []).isEmpty
                  || (!it.isEmpty && (tpl.assignedIssueTypes.getD []).contains it))) = true
          · rw [if_pos hmatch, List.find?_cons_of_pos]
            rw [specScopeQual_eq, hdel, hact, hmatch]
            rfl
          · rw [if_neg hmatch, List.find?_cons_of_neg]
            · exact ih
            · rw [specScopeQual_eq, hdel, hact]
              simp only [Bool.not_eq_true] at hmatch
              rw [hmatch]
              simp
        · simp only [Bool.not_eq_true] at hact
          rw [hact]
          simp only [Bool.not_false, if_true]
          rw [List.find?_cons_of_neg]
          · exact ih
          · rw [specScopeQual_eq, hact]
            simp

/-- C3: for a non-empty project key, `findMatchingTemplate` returns the
first template in index order that is non-deleted, active and whose
scope matches the pair under the wildcard rules (an absent issue type
never matches a non-empty issue-type set), and it returns none exactly
when no stored, indexed template qualifies. -/
theorem findMatch_spec (s : Store) (pk it : String) (hpk : pk.isEmpty = false) :
    findMatchingTemplate s pk it = specFindMatch s pk it
    ∧ (findMatchingTemplate s pk it = none ↔
        ∀ t ∈ s.index.filterMap (fun id => storeGet s.tms id),
          specScopeQual t pk it = false) := by
  have heq : findMatchingTemplate s pk it = specFindMatch s pk it := by
    unfold findMatchingTemplate specFindMatch
    rw [hpk]
    simp only [Bool.false_eq_true, if_false]
    exact findLoop_eq_find s.tms pk it s.index
  refine ⟨heq, ?_⟩
  rw [heq]
  unfold specFindMatch
  rw [List.find?_eq_none]
  constructor
  · intro h t ht
    have := h t ht
    simpa using this
  · intro h t ht
    simp [h t ht]

/-- Witness for C3 at a concrete store and pair. -/
theorem findMatch_spec_witness :
    ("P").isEmpty = false
    ∧ findMatchingTemplate wStore "P" "" = specFindMatch wStore "P" ""
    ∧ (findMatchingTemplate wStore "P" "" = none ↔
        ∀ t ∈ wStore.index.filterMap (fun id => storeGet wStore.tms id),
          specScopeQual t "P" "" = false) :=
  ⟨by decide, (findMatch_spec wStore "P" "" (by decide)).1,
   (findMatch_spec wStore "P" "" (by decide)).2⟩

theorem isSome_ite {α : Type} (c : Bool) (a : α) :
    (if c = true then some a else none).isSome = c := by
  cases c <;> simp

/-- JS blankness: a string empty before trimming is empty after it. -/
theorem nonblank_simp (x : String) :
    (!x.isEmpty && !(jsTrim x).isEmpty) = !(jsTrim x).isEmpty := by
  cases hx : x.isEmpty
  · simp
  · have hx0 : x = "" := (String.isEmpty_iff x).mp hx
    subst hx0
    decide

/-- C5: whenever the prefill resolver returns data for a matched
template, `applySummary` is true exactly when the template summary is
non-blank and the caller's current summary is blank (whitespace-only
counts as blank), likewise `applyDescription` for the template content
and the caller's current description, and a non-blank caller value
always suppresses the corresponding flag. -/
theorem computePrefill_spec (s : Store) (pk it cs cd : String) (d : PrefillData)
    (hok : getPrefillForCreateIssue s pk it cs cd = some d) :
    ∃ tpl, findMatchingTemplate s pk it = some tpl
      ∧ d.applySummary = (!(jsTrim tpl.summary).isEmpty && (jsTrim cs).isEmpty)
      ∧ d.applyDescription = (!(jsTrim tpl.content).isEmpty && (jsTrim cd).isEmpty)
      ∧ ((jsTrim cs).isEmpty = false → d.applySummary = false)
      ∧ ((jsTrim cd).isEmpty = false → d.applyDescription = false) := by
  unfold getPrefillForCreateIssue at hok
  by_cases hpk : pk.isEmpty = true
  · rw [if_pos hpk] at hok
    cases hok
  · rw [if_neg hpk] at hok
    rcases hfind : findMatchingTemplate s pk it with _ | tpl
    · rw [hfind] at hok
      cases hok
    · rw [hfind] at hok
      simp only [Option.some.injEq] at hok
      subst hok
      refine ⟨tpl, rfl, ?_, ?_, ?_, ?_⟩
      · show ((if (!tpl.summary.isEmpty && !(jsTrim tpl.summary).isEmpty) = true
            then some tpl.summary else none).isSome && (jsTrim cs).isEmpty) = _
        rw [isSome_ite, nonblank_simp]
      · show ((if (!tpl.content.isEmpty && !(jsTrim tpl.content).isEmpty) = true
            then some tpl.content else none).isSome && (jsTrim cd).isEmpty) = _
        rw [isSome_ite, nonblank_simp]
      · intro hcs
        show ((if (!tpl.summary.isEmpty && !(jsTrim tpl.summary).isEmpty) = true
            then some tpl.summary else none).isSome && (jsTrim cs).isEmpty) = false
        rw [hcs]
        simp
      · intro hcd
        show ((if (!tpl.content.isEmpty && !(jsTrim tpl.content).isEmpty) = true
            then some tpl.content else none).isSome && (jsTrim cd).isEmpty) = false
        rw [hcd]
        simp

/-- Witness for C5: blank caller values against the matched template A
give both apply flags. -/
theorem computePrefill_spec_witness :
    getPrefillForCreateIssue wStore "P" "" "" "" = some wPrefill
    ∧ ∃ tpl, findMatchingTemplate wStore "P" "" = some tpl
      ∧ wPrefill.applySummary = (!(jsTrim tpl.summary).isEmpty && (jsTrim "").isEmpty)
      ∧ wPrefill.applyDescription = (!(jsTrim tpl.content).isEmpty && (jsTrim "").isEmpty)
      ∧ ((jsTrim "").isEmpty = false → wPrefill.applySummary = false)
      ∧ ((jsTrim "").isEmpty = false → wPrefill.applyDescription = false) :=
  ⟨by decide, computePrefill_spec wStore "P" "" "" "" wPrefill (by decide)⟩

/-- The enforcement scan only flips `active` flags: the deletion flag
and both scope fields of every stored record are preserved. -/
theorem enforce_preserves_scopes (T : Template) (now : Nat) (l : List String)
    (tms : List (String × Template)) (k : String) (o : Template)
    (h : storeGet tms k = some o) :
    ∃ o2, storeGet (enforceLoop T now tms l).1 k = some o2
      ∧ o2.deleted = o.deleted
      ∧ o2.assignedProjects = o.assignedProjects
      ∧ o2.assignedIssueTypes = o.assignedIssueTypes := by
  rcases enforceLoop_get_or T now l tms k with heq | ⟨o0, ho1, ho2⟩
  · exact ⟨o, by rw [heq, h], rfl, rfl, rfl⟩
  · rw [h] at ho1
    cases ho1
    exact ⟨deactivate o now, ho2, rfl, rfl, rfl⟩

/-- C9: writing both scope axes through `assignTemplateToProjects` and
immediately reading them back through `getTemplateAssignments` on the
same id returns exactly the sets last written. -/
theorem assign_get_roundtrip (s : Store) (u : Option User) (pa : String → Bool)
    (id : String) (tpl : Template) (ps its : List String) (now : Nat)
    (s1 : Store) (t1 : Template) (ds : List String)
    (hget : storeGet s.tms id = some tpl) (hdel : tpl.deleted = false)
    (hok : assignTemplateToProjects s u pa id (.arr ps) (.arr its) now = .ok (s1, t1, ds)) :
    getTemplateAssignments s1 id = .ok (ps, its) := by
  simp only [assignTemplateToProjects, hget] at hok
  by_cases hid : id.isEmpty = true
  · rw [if_pos hid] at hok
    cases hok
  · rw [if_neg hid] at hok
    rw [if_neg (by simp [hdel])] at hok
    by_cases hauth : assignProjectsAuthorized s u pa tpl ps = true
    · simp only [hauth, Bool.not_true, Bool.false_eq_true, if_false] at hok
      simp only [isActive] at hok
      by_cases hact : tpl.active.getD false = true
      · rw [if_pos hact] at hok
        simp only [enforceUniqueActiveTemplates, isActive, Option.getD_some] at hok
        rw [if_neg (by simp [hact])] at hok
        simp only [Except.ok.injEq, Prod.mk.injEq] at hok
        obtain ⟨hs1, ht1, hds⟩ := hok
        rw [← hs1]
        obtain ⟨o2, ho2, hd2, hap2, hai2⟩ :=
          enforce_preserves_scopes
            ({ tpl with assignedProjects := some ps, assignedIssueTypes := some its, updatedAt := now })
            now s.index
            (storeSet s.tms id
              ({ tpl with assignedProjects := some ps, assignedIssueTypes := some its, updatedAt := now }))
            id _ (storeGet_storeSet_self s.tms id _)
        unfold getTemplateAssignments
        rw [if_neg hid]
        simp only [ho2]
        rw [if_neg (by rw [hd2]; simp [hdel])]
        rw [hap2, hai2]
        rfl
      · rw [if_neg hact] at hok
        simp only [Except.ok.injEq, Prod.mk.injEq] at hok
        obtain ⟨hs1, ht1, hds⟩ := hok
        rw [← hs1]
        unfold getTemplateAssignments
        rw [if_neg hid]
        simp only [storeGet_storeSet_self]
        rw [if_neg (by simp [hdel])]
        rfl
    · simp only [Bool.not_eq_true] at hauth
      simp only [hauth, Bool.not_false, if_true] at hok
      cases hok

/-- Witness for C9 at a concrete store: assign project `X` and issue
type `Bug` to template A, then read them back. -/
theorem assign_get_roundtrip_witness :
    storeGet wStore.tms "A" = some wTplA
    ∧ wTplA.deleted = false
    ∧ assignTemplateToProjects wStore none (fun _ => false) "A"
        (.arr ["X"]) (.arr ["Bug"]) 9 = .ok (wStoreAssigned, wTplA2, [])
    ∧ getTemplateAssignments wStoreAssigned "A" = .ok (["X"], ["Bug"]) := by
  have hok : assignTemplateToProjects wStore none (fun _ => false) "A"
      (.arr ["X"]) (.arr ["Bug"]) 9 = .ok (wStoreAssigned, wTplA2, []) := by decide
  exact ⟨by decide, by decide, hok,
    assign_get_roundtrip wStore none (fun _ => false) "A" wTplA ["X"] ["Bug"] 9
      wStoreAssigned wTplA2 [] (by decide) (by decide) hok⟩

/-- C10: a successful `createTemplate` stores a record with no `active`
flag (so matching and enforcement treat it as inactive), keeps the
caller's projects argument in the `projects` field that scope matching
never reads, and leaves `assignedProjects` absent, so the effective
project scope of a fresh template is the wildcard for every project
key. -/
theorem createTemplate_spec (s : Store) (u : Option User) (p : CreatePayload)
    (newId : String) (now : Nat) (s1 : Store) (t : Template)
    (hok : createTemplate s u p newId now = .ok (s1, t)) :
    t.active = none
    ∧ isActive t = false
    ∧ t.projects = (match p.projects with | .arr xs => xs | _ => [])
    ∧ t.assignedProjects = none
    ∧ t.assignedIssueTypes = none
    ∧ storeGet s1.tms newId = some t
    ∧ (∀ pk it, specScopeQual t pk it = false)
    ∧ (∀ s2 n2, enforceUniqueActiveTemplates s2 t n2 = (s2, []))
    ∧ (∀ pk, ((t.assignedProjects.getD []).isEmpty
          || (t.assignedProjects.getD []).contains pk) = true) := by
  unfold createTemplate at hok
  by_cases hname : (p.name.isEmpty || (jsTrim p.name).isEmpty) = true
  · rw [if_pos hname] at hok
    cases hok
  · rw [if_neg hname] at hok
    by_cases hauth : (!s.config.allowAllUsers && !(isAdminUser s u)) = true
    · rw [if_pos hauth] at hok
      cases hok
    · rw [if_neg hauth] at hok
      simp only [Except.ok.injEq, Prod.mk.injEq] at hok
      obtain ⟨hs1, ht⟩ := hok
      subst ht
      refine ⟨rfl, rfl, rfl, rfl, rfl, ?_, ?_, ?_, ?_⟩
      · rw [← hs1]
        exact storeGet_storeSet_self s.tms newId _
      · intro pk it
        rw [specScopeQual_eq]
        simp [isActive]
      · intro s2 n2
        unfold enforceUniqueActiveTemplates
        simp [isActive]
      · intro pk
        simp

/-- Witness for C10 at a concrete creation call. -/
theorem createTemplate_spec_witness :
    createTemplate initStore (some cAdmin) cPayloadP "N1" 3 = .ok (cStoreNew, cTplNew)
    ∧ cTplNew.active = none ∧ isActive cTplNew = false
    ∧ cTplNew.projects = ["PX"] ∧ cTplNew.assignedProjects = none := by
  have hok : createTemplate initStore (some cAdmin) cPayloadP "N1" 3
      = .ok (cStoreNew, cTplNew) := by decide
  have h := createTemplate_spec initStore (some cAdmin) cPayloadP "N1" 3 cStoreNew cTplNew hok
  refine ⟨hok, h.1, h.2.1, ?_, h.2.2.2.1⟩
  rw [h.2.2.1]
  rfl

/-- C4 (counterexample): with `allowAllUsers = false`, no admin rights
and a different owner — an authorization decision of false —
`setTemplateActive` still succeeds and mutates the store, and
`duplicateTemplate` also succeeds: neither performs any authorization
check. -/
theorem setTemplateActive_skips_authorization :
    c4Store.config.allowAllUsers = false
    ∧ isAdminUser c4Store (some cEve) = false
    ∧ c4Tpl.owner ≠ some cEve.accountId
    ∧ setTemplateActive c4Store (some cEve) "T" true 4 = .ok (c4Store1, c4Tpl1, [])
    ∧ c4Store1 ≠ c4Store
    ∧ duplicateTemplate c4Store (some cEve) "T" "" "T2" 4 = .ok (c4StoreDup, c4TplDup) := by
  decide

set_option maxHeartbeats 1000000 in
/-- C4 (amended): `updateTemplate`, `deleteTemplate` and both assign
operations reject an unauthorized principal with an Authorization error
before any write, but `setTemplateActive` and `duplicateTemplate`
perform no authorization check and succeed for the same unauthorized
principal. -/
theorem authorization_gates_spec (s : Store) (usr : User) (pa : String → Bool)
    (id newId : String) (tpl : Template) (p : UpdatePayload)
    (ps its : List String) (hard : Bool) (now : Nat)
    (hall : s.config.allowAllUsers = false)
    (hadm : isAdminUser s (some usr) = false)
    (howner : tpl.owner ≠ some usr.accountId)
    (hid : id.isEmpty = false)
    (hget : storeGet s.tms id = some tpl)
    (hdel : tpl.deleted = false)
    (hpid : p.id = id)
    (hpa : ps.all (fun q => isProjectAdminB pa q) = false) :
    updateTemplate s (some usr) p now
      = .error (.authz "Not authorized to update template")
    ∧ assignTemplateToIssueTypes s (some usr) id (.arr its) .undef now
      = .error (.authz "Not authorized to assign template to issue types")
    ∧ assignTemplateToProjects s (some usr) pa id (.arr ps) .undef now
      = .error (.authz "Not authorized to assign template to projects")
    ∧ deleteTemplate s (some usr) id hard now
      = .error (.authz "Not authorized to delete template")
    ∧ (∃ s2 t2 ds, setTemplateActive s (some usr) id true now = .ok (s2, t2, ds)
        ∧ isActive t2 = true)
    ∧ (∃ s3 c, duplicateTemplate s (some usr) id "" newId now = .ok (s3, c)) := by
  have hbeq : (tpl.owner == some usr.accountId) = false :=
    beq_eq_false_iff_ne.mpr howner
  have hauth : ownerOrAdminAuthorized s (some usr) tpl.owner = false := by
    unfold ownerOrAdminAuthorized
    rw [hall, hadm]
    simpa using hbeq
  have hauthP : assignProjectsAuthorized s (some usr) pa tpl ps = false := by
    unfold assignProjectsAuthorized
    rw [hall, hadm]
    simp [hbeq, hpa]
  refine ⟨?_, ?_, ?_, ?_, ?_, ?_⟩
  · simp only [updateTemplate, hpid, hget]
    rw [if_neg (by simp [hid])]
    rw [if_neg (by simp [hdel])]
    rw [if_pos (show (!(ownerOrAdminAuthorized s (some usr) tpl.owner)) = true by
      rw [hauth]; rfl)]
  · simp only [assignTemplateToIssueTypes, hget]
    rw [if_neg (by simp [hid])]
    rw [if_neg (by simp [hdel])]
    rw [if_pos (show (!(ownerOrAdminAuthorized s (some usr) tpl.owner)) = true by
      rw [hauth]; rfl)]
  · simp only [assignTemplateToProjects, hget]
    rw [if_neg (by simp [hid])]
    rw [if_neg (by simp [hdel])]
    rw [if_pos (show (!(assignProjectsAuthorized s (some usr) pa tpl ps)) = true by
      rw [hauthP]; rfl)]
  · simp only [deleteTemplate, hget]
    rw [if_neg (by simp [hid])]
    rw [if_pos (show (!(ownerOrAdminAuthorized s (some usr) tpl.owner)) = true by
      rw [hauth]; rfl)]
  · simp only [setTemplateActive, hget]
    rw [if_neg (by simp [hid])]
    rw [if_neg (by simp [hdel])]
    simp only [isActive, Option.getD_some, if_true]
    exact ⟨_, _, _, rfl, rfl⟩
  · simp only [duplicateTemplate, hget]
    rw [if_neg (by simp [hid])]
    rw [if_neg (by simp [hdel])]
    exact ⟨_, _, rfl⟩

/-- Witness for the amended C4 at a concrete store and principal. -/
theorem authorization_gates_spec_witness :
    updateTemplate c4Store (some cEve) c4PayUpd 4
      = .error (.authz "Not authorized to update template")
    ∧ (∃ s2 t2 ds, setTemplateActive c4Store (some cEve) "T" true 4 = .ok (s2, t2, ds)
        ∧ isActive t2 = true) := by
  have h := authorization_gates_spec c4Store cEve (fun _ => false) "T" "T2" c4Tpl c4PayUpd
    ["P"] ["I"] false 4 (by decide) (by decide) (by decide) (by decide) (by decide)
    (by decide) (by decide) (by decide)
  exact ⟨h.1, h.2.2.2.2.1⟩

/-- C8 (counterexample): a supplied non-collection secondary scope
axis is silently coerced to the empty set instead of failing with a
Validation error: the call succeeds and writes an empty issue-type
set. -/
theorem assign_secondary_axis_not_validated :
    assignTemplateToProjects c8Store none (fun _ => false) "A" (.arr ["P"]) (.str "oops") 6
      = .ok (c8Store1, c8Tpl1, [])
    ∧ c8Tpl1.assignedIssueTypes = some [] := by
  decide

/-- C8 (amended): the Assignment Engine operations fail with NotFound
for unknown ids and for soft-deleted ids; a non-collection primary
scope axis fails with Validation; a supplied non-collection secondary
axis is coerced to the empty set instead of failing (see the
counterexample). -/
theorem assignment_engine_errors_spec (s : Store) (u : Option User) (pa : String → Bool)
    (id z : String) (v : JVal) (xs : List String) (b : Bool) (now : Nat)
    (hid : id.isEmpty = false) :
    (storeGet s.tms id = none →
      assignTemplateToProjects s u pa id (.arr xs) v now
          = .error (.notFound "Template not found")
      ∧ assignTemplateToIssueTypes s u id (.arr xs) v now
          = .error (.notFound "Template not found")
      ∧ setTemplateActive s u id b now = .error (.notFound "Template not found")
      ∧ getTemplateAssignments s id = .error (.notFound "Template not found"))
    ∧ (∀ tpl, storeGet s.tms id = some tpl → tpl.deleted = true →
      assignTemplateToProjects s u pa id (.arr xs) v now
          = .error (.notFound "Template not found")
      ∧ assignTemplateToIssueTypes s u id (.arr xs) v now
          = .error (.notFound "Template not found")
      ∧ setTemplateActive s u id b now = .error (.notFound "Template not found")
      ∧ getTemplateAssignments s id = .error (.notFound "Template not found"))
    ∧ assignTemplateToProjects s u pa id (.str z) v now
        = .error (.validation "`projects` must be an array")
    ∧ assignTemplateToProjects s u pa id .undef v now
        = .error (.validation "`projects` must be an array")
    ∧ assignTemplateToIssueTypes s u id (.str z) v now
        = .error (.validation "`issueTypes` must be an array")
    ∧ assignTemplateToIssueTypes s u id .undef v now
        = .error (.validation "`issueTypes` must be an array") := by
  refine ⟨?_, ?_, ?_, ?_, ?_, ?_⟩
  · intro hnone
    refine ⟨?_, ?_, ?_, ?_⟩
    · simp only [assignTemplateToProjects, hnone]
      rw [if_neg (by simp [hid])]
    · simp only [assignTemplateToIssueTypes, hnone]
      rw [if_neg (by simp [hid])]
    · simp only [setTemplateActive, hnone]
      rw [if_neg (by simp [hid])]
    · simp only [getTemplateAssignments, hnone]
      rw [if_neg (by simp [hid])]
  · intro tpl htpl hdel
    refine ⟨?_, ?_, ?_, ?_⟩
    · simp only [assignTemplateToProjects, htpl]
      rw [if_neg (by simp [hid])]
      rw [if_pos hdel]
    · simp only [assignTemplateToIssueTypes, htpl]
      rw [if_neg (by simp [hid])]
      rw [if_pos hdel]
    · simp only [setTemplateActive, htpl]
      rw [if_neg (by simp [hid])]
      rw [if_pos hdel]
    · simp only [getTemplateAssignments, htpl]
      rw [if_neg (by simp [hid])]
      rw [if_pos hdel]
  · simp only [assignTemplateToProjects]
    rw [if_neg (by simp [hid])]
  · simp only [assignTemplateToProjects]
    rw [if_neg (by simp [hid])]
  · simp only [assignTemplateToIssueTypes]
    rw [if_neg (by simp [hid])]
  · simp only [assignTemplateToIssueTypes]
    rw [if_neg (by simp [hid])]

/-- Witness for the amended C8 at concrete stores: an unknown id, a
soft-deleted id, and a non-collection primary axis. -/
theorem assignment_engine_errors_spec_witness :
    getTemplateAssignments c8Store "missing" = .error (.notFound "Template not found")
    ∧ getTemplateAssignments c8DelStore "D" = .error (.notFound "Template not found")
    ∧ assignTemplateToProjects c8Store none (fun _ => false) "A" (.str "bad") .undef 0
        = .error (.validation "`projects` must be an array") := by
  have h1 := assignment_engine_errors_spec c8Store none (fun _ => false) "missing" "bad"
    .undef [] true 0 (by decide)
  have h2 := assignment_engine_errors_spec c8DelStore none (fun _ => false) "D" "bad"
    .undef [] true 0 (by decide)
  have h3 := assignment_engine_errors_spec c8Store none (fun _ => false) "A" "bad"
    .undef [] true 0 (by decide)
  exact ⟨(h1.1 (by decide)).2.2.2, (h2.2.1 c8DelTpl (by decide) (by decide)).2.2.2,
    h3.2.2.1⟩

end IssueTemplates
